import Mathlib

/-!
Shallow embedding of the persona-chatbot backend (FastAPI + SQLAlchemy).

Database tables are modelled as insertion-ordered lists of rows; SQLAlchemy
queries become list operations (`filter`, and a stable insertion sort for
`order_by`).  External collaborators — the Groq completion backend, bcrypt,
SHA-256, the JWT library and the four metadata APIs — are modelled as
explicit parameters (abstract functions with stated properties, or opaque
outcome values fed to the functions under verification).
-/

namespace PersonaChatbot

/-- Row of the `chats` table (backend/src/models/chat.py). -/
structure Chat where
  id : Nat
  user_id : Nat
  character_id : Option Nat
  message : String
  is_bot : Bool
  timestamp : Nat
  chat_session : Option String
  deriving DecidableEq, Repr

/-- Row of the `characters` table (backend/src/models/character.py). -/
structure Character where
  id : Nat
  name : String
  movie : String
  chat_style : String
  example_responses : List String
  genre : Option String
  source : Option String
  image_url : Option String
  external_id : Option String
  deriving DecidableEq, Repr

/-- Row of the `user_character_favorites` table (backend/src/models/character.py). -/
structure UserCharacterFavorite where
  id : Nat
  user_id : Nat
  character_id : Nat
  created_at : Nat
  deriving DecidableEq, Repr

/-- Row of the `users` table (backend/src/models/user.py). -/
structure User where
  id : Nat
  username : String
  email : String
  hashed_password : Option String
  google_id : Option String
  auth_provider : String
  is_active : Bool
  is_superuser : Bool
  deriving DecidableEq, Repr

/-! ### Stable sort, modelling SQL `ORDER BY` and Python `sorted`

Structurally recursive so that concrete instances evaluate by `decide`.
`insertLe` places the new element before the first list element it is
`le`-related to, which makes `sortBy` stable. -/

def insertLe (le : α → α → Bool) (a : α) : List α → List α
  | [] => [a]
  | b :: l => if le a b then a :: b :: l else b :: insertLe le a l

def sortBy (le : α → α → Bool) : List α → List α
  | [] => []
  | a :: l => insertLe le a (sortBy le l)

/-! ### Chat session engine (backend/src/services/chatbot.py) -/

/-- The SQLAlchemy filter `Chat.user_id == uid, Chat.chat_session == sid`. -/
def userSessionFilter (uid : Nat) (sid : String) (c : Chat) : Bool :=
  c.user_id == uid && c.chat_session == some sid

/-- `order_by(Chat.timestamp.asc())` comparison. -/
def tsLe (a b : Chat) : Bool :=
  decide (a.timestamp ≤ b.timestamp)

/-- The session query used throughout: filter by (user, session id), order by
ascending timestamp. -/
def sessionChats (db : List Chat) (uid : Nat) (sid : String) : List Chat :=
  sortBy tsLe (db.filter (userSessionFilter uid sid))

/-- ChatbotService.get_or_create_chat_session.  Python truthiness: a `None`
or empty-string session id mints a fresh id; otherwise the id is reused only
when some turn already exists for (user, session id). -/
def get_or_create_chat_session (db : List Chat) (uid : Nat)
    (chat_session : Option String) (freshSid : String) : String :=
  match chat_session with
  | none => freshSid
  | some s =>
    if s = "" then freshSid
    else if (db.find? (userSessionFilter uid s)).isSome then s
    else freshSid

/-- Body of the character-specific system prompt (ChatbotService.get_character_context). -/
def characterContext (ch : Character) : String :=
  "You are " ++ ch.name ++ " from " ++ ch.movie ++ ". " ++
  "Your chat style is " ++ ch.chat_style ++ ". " ++
  "Here are some example responses that show your personality:\n" ++
  String.join (ch.example_responses.map (fun r => "- " ++ r ++ "\n"))

/-- ChatbotService.get_character_context: generic prompt when no character id
is given, otherwise look the character up and raise ValueError when absent. -/
def get_character_context (chars : List Character) (character_id : Option Nat) :
    Except String String :=
  match character_id with
  | none => .ok "You are a helpful AI assistant."
  | some cid =>
    match chars.find? (fun ch => ch.id == cid) with
    | none => .error ("Character with id " ++ toString cid ++ " not found")
    | some ch => .ok (characterContext ch)

/-- One `{"role": _, "content": _}` entry of the completion request. -/
structure RoleMsg where
  role : String
  content : String
  deriving DecidableEq, Repr

def toRoleMsg (c : Chat) : RoleMsg :=
  { role := if c.is_bot then "assistant" else "user", content := c.message }

/-- The history replay built inside stream_response / get_response: session
turns in ascending timestamp order, excluding the last one (the just-inserted
current user message), each mapped to (role, content). -/
def conversation_history (db : List Chat) (uid : Nat) (sid : String) : List RoleMsg :=
  ((sessionChats db uid sid).dropLast).map toRoleMsg

/-- `messages_for_api`: system prompt, then history, then the current message. -/
def messages_for_api (system_prompt : String) (history : List RoleMsg)
    (message : String) : List RoleMsg :=
  { role := "system", content := system_prompt } :: history ++
    [{ role := "user", content := message }]

/-- One SSE frame yielded by stream_response. -/
inductive StreamEvent where
  | text (content : String) (chat_session : String)
  | doneOk (chat_session : String)
  | doneErr (error : String)
  deriving DecidableEq, Repr

/-- Outcome of the streamed Groq completion call: either all chunks arrive and
the stream completes, or some chunks arrive and then an exception is raised. -/
inductive GenOutcome where
  | success (chunks : List String)
  | failure (chunks : List String) (err : String)
  deriving DecidableEq, Repr

/-- The loop body `if chunk.choices[0].delta.content:` skips falsy (empty)
chunks; every non-empty chunk is yielded as a `text` frame. -/
def emitChunks (chunks : List String) (sid : String) : List StreamEvent :=
  (chunks.filter (fun c => c ≠ "")).map (fun c => .text c sid)

/-- `full_response`: concatenation of the non-empty streamed chunks. -/
def full_response (chunks : List String) : String :=
  String.join (chunks.filter (fun c => c ≠ ""))

/-- Observable result of one stream_response run: the final chats table, the
emitted SSE frames, and the message list passed to the completion backend
(`none` when the run failed before the backend was invoked). -/
structure StreamOut where
  db : List Chat
  events : List StreamEvent
  api : Option (List RoleMsg)
  deriving DecidableEq, Repr

/-- ChatbotService.stream_response.  `now`/`tbot` are the two
`datetime.utcnow()` readings, `id1`/`id2` the database-assigned row ids,
`freshSid` the uuid minted when no session is reused, and `outcome` the
behaviour of the Groq streaming call. -/
def stream_response (chars : List Character) (db : List Chat) (uid : Nat)
    (character_id : Option Nat) (chat_session : Option String) (message : String)
    (freshSid : String) (now tbot : Nat) (id1 id2 : Nat) (outcome : GenOutcome) :
    StreamOut :=
  let sid := get_or_create_chat_session db uid chat_session freshSid
  let userChat : Chat :=
    { id := id1, user_id := uid, character_id := character_id, message := message,
      is_bot := false, timestamp := now, chat_session := some sid }
  let db1 := db ++ [userChat]
  match get_character_context chars character_id with
  | .error e => { db := db1, events := [.doneErr e], api := none }
  | .ok system_prompt =>
    let api := messages_for_api system_prompt (conversation_history db1 uid sid) message
    match outcome with
    | .failure chunks err =>
      { db := db1, events := emitChunks chunks sid ++ [.doneErr err], api := some api }
    | .success chunks =>
      let botChat : Chat :=
        { id := id2, user_id := uid, character_id := character_id,
          message := full_response chunks, is_bot := true, timestamp := tbot,
          chat_session := some sid }
      { db := db1 ++ [botChat], events := emitChunks chunks sid ++ [.doneOk sid],
        api := some api }

/-- ChatbotService.get_response (non-streaming).  The persisted user turn is
built with no `character_id` keyword, the generated turn carries
`character_id if character else None`.  `if character_id:` treats both `None`
and `0` as falsy. -/
def get_response (chars : List Character) (db : List Chat) (uid : Nat)
    (character_id : Option Nat) (chat_session : Option String) (message : String)
    (freshSid : String) (t1 t2 : Nat) (id1 id2 : Nat) (response_text : String) :
    Except String (List Chat × List RoleMsg × String) :=
  let sid := get_or_create_chat_session db uid chat_session freshSid
  let userChat : Chat :=
    { id := id1, user_id := uid, character_id := none, message := message,
      is_bot := false, timestamp := t1, chat_session := some sid }
  let db1 := db ++ [userChat]
  let truthyCid : Bool := match character_id with
    | some c => c != 0
    | none => false
  let characterFound : Option Character :=
    match character_id with
    | some c => if c != 0 then chars.find? (fun ch => ch.id == c) else none
    | none => none
  if truthyCid && characterFound.isNone then
    .error ("Character with id " ++ toString (character_id.getD 0) ++ " not found")
  else
    match get_character_context chars character_id with
    | .error e => .error e
    | .ok system_prompt =>
      let api := messages_for_api system_prompt (conversation_history db1 uid sid) message
      let botChat : Chat :=
        { id := id2, user_id := uid,
          character_id := if characterFound.isSome then character_id else none,
          message := response_text, is_bot := true, timestamp := t2,
          chat_session := some sid }
      .ok (db1 ++ [botChat], api, response_text)

/-! ### Chat routes (backend/src/routes/chat.py) -/

/-- One entry of the `GET /messages/chat/{session}` response. -/
structure MsgDict where
  id : Nat
  role : String
  content : String
  message : String
  is_bot : Bool
  timestamp : Nat
  chat_session : Option String
  character_id : Option Nat
  deriving DecidableEq, Repr

def toMsgDict (c : Chat) : MsgDict :=
  { id := c.id, role := if c.is_bot then "assistant" else "user",
    content := c.message, message := c.message, is_bot := c.is_bot,
    timestamp := c.timestamp, chat_session := c.chat_session,
    character_id := c.character_id }

/-- get_chat_session_messages: session turns ordered by ascending timestamp,
404 when the session has no turns. -/
def get_chat_session_messages (db : List Chat) (uid : Nat) (sid : String) :
    Except (Nat × String) (List MsgDict) :=
  let messages := sessionChats db uid sid
  if messages.isEmpty then
    .error (404, "Chat session " ++ sid ++ " not found")
  else
    .ok (messages.map toMsgDict)

/-- One entry of the `GET /chat/sessions` response. -/
structure SessionInfo where
  chat_session : String
  title : String
  last_message : String
  created_at : Nat
  updated_at : Nat
  character_id : Option Nat
  message_count : Nat
  deriving DecidableEq, Repr

/-- First-occurrence de-duplication, modelling the `.distinct()` query over
the insertion-ordered rows. -/
def distinctFirstAux : List String → List String → List String
  | [], _ => []
  | s :: rest, seen =>
    if s ∈ seen then distinctFirstAux rest seen
    else s :: distinctFirstAux rest (s :: seen)

def distinctFirst (l : List String) : List String :=
  distinctFirstAux l []

/-- The distinct non-null session ids of a user's chats. -/
def sessionIdsOf (db : List Chat) (uid : Nat) : List String :=
  distinctFirst
    ((db.filter (fun c => c.user_id == uid && c.chat_session.isSome)).filterMap
      (fun c => c.chat_session))

/-- Per-session body of get_chat_sessions: skip empty sessions, derive title,
preview, timestamps, character id and count from the timestamp-ordered turns.
`if msg.character_id` treats `None` and `0` as falsy. -/
def mkSessionInfo (db : List Chat) (uid : Nat) (sid : String) : Option SessionInfo :=
  match sessionChats db uid sid with
  | [] => none
  | first :: rest =>
    let msgs := first :: rest
    let firstUser := msgs.find? (fun m => !m.is_bot)
    let last := msgs.getLast (List.cons_ne_nil first rest)
    let cid := match msgs.find? (fun m => m.character_id.getD 0 != 0) with
      | some m => m.character_id
      | none => none
    let title := match firstUser with
      | some m => m.message.take 50 ++ (if m.message.length > 50 then "..." else "")
      | none => "New conversation"
    some { chat_session := sid, title := title, last_message := last.message,
           created_at := first.timestamp, updated_at := last.timestamp,
           character_id := cid, message_count := msgs.length }

/-- `sorted(sessions, key=updated_at, reverse=True)`: stable, descending. -/
def updLe (a b : SessionInfo) : Bool :=
  decide (b.updated_at ≤ a.updated_at)

/-- get_chat_sessions. -/
def get_chat_sessions (db : List Chat) (uid : Nat) : List SessionInfo :=
  sortBy updLe ((sessionIdsOf db uid).filterMap (mkSessionInfo db uid))

/-- Spec-side title formula (used to compare the route against the spec
sentence): first non-generated turn's text truncated to 50 characters, with an
ellipsis appended exactly when that text exceeds 50 characters; the literal
"New conversation" when no non-generated turn exists. -/
def titleSpec (msgs : List Chat) : String :=
  match msgs.find? (fun m => !m.is_bot) with
  | some m => m.message.take 50 ++ (if m.message.length > 50 then "..." else "")
  | none => "New conversation"

/-! ### Favorites listing (backend/src/routes/character.py, get_my_characters) -/

/-- get_my_characters: the favorites query carries no `order_by`, so rows come
back in table (insertion) order; characters are then arranged by that order of
favorite rows.  `if fav.character_id` treats `0` as falsy. -/
def get_my_characters (favs : List UserCharacterFavorite) (chars : List Character)
    (uid : Nat) : List Character :=
  let favorites := favs.filter (fun f => f.user_id == uid)
  if favorites.isEmpty then []
  else
    let character_ids := (favorites.filter (fun f => f.character_id != 0)).map
      (fun f => f.character_id)
    if character_ids.isEmpty then []
    else
      let characters := chars.filter (fun c => c.id ∈ character_ids)
      character_ids.filterMap (fun cid => characters.find? (fun c => c.id == cid))

/-! ### External character aggregator
(backend/src/services/character_service.py, search_external_characters) -/

/-- Normalized result shape produced by the four source adapters. -/
structure ExternalResult where
  name : String
  universe_title : String
  description : String
  image_url : Option String
  genre : Option String
  source : String
  external_id : Option String
  deriving DecidableEq, Repr

/-- `(r.get("source"), r.get("external_id") or r.get("name"))`: Python `or`
falls back to the name when the external id is `None` or the empty string. -/
def dedupKey (r : ExternalResult) : String × String :=
  (r.source, match r.external_id with
    | none => r.name
    | some s => if s = "" then r.name else s)

/-- One `try: ... except Exception: pass` block of the `all` branch: a failed
source contributes nothing; a successful one has its results folded into the
accumulated (results, seen) pair, skipping already-seen keys. -/
def addSource (acc : List ExternalResult × List (String × String))
    (src : Except String (List ExternalResult)) :
    List ExternalResult × List (String × String) :=
  match src with
  | .error _ => acc
  | .ok rs =>
    rs.foldl (fun acc r =>
      let k := dedupKey r
      if k ∈ acc.2 then acc else (acc.1 ++ [r], k :: acc.2)) acc

/-- search_external_characters, `all` branch: AniList, then TMDB, then
OpenLibrary, then Wikipedia, each isolated, then truncate to the limit. -/
def search_external_characters_all
    (anime tmdb openlibrary wikipedia : Except String (List ExternalResult))
    (lim : Nat) : List ExternalResult :=
  (addSource (addSource (addSource (addSource ([], []) anime) tmdb) openlibrary)
    wikipedia).1.take lim

/-- Spec-side formulation of the same pipeline: concatenate the successful
sources in the fixed priority order and de-duplicate keeping first
occurrences. -/
def dedupByKey : List ExternalResult → List (String × String) → List ExternalResult
  | [], _ => []
  | r :: rs, seen =>
    let k := dedupKey r
    if k ∈ seen then dedupByKey rs seen
    else r :: dedupByKey rs (k :: seen)

/-- Seen-key set after folding a result list. -/
def seenAfter : List ExternalResult → List (String × String) → List (String × String)
  | [], seen => seen
  | r :: rs, seen =>
    let k := dedupKey r
    if k ∈ seen then seenAfter rs seen else seenAfter rs (k :: seen)

/-- A source's contribution: its list on success, nothing on failure. -/
def sourceList (x : Except String (List ExternalResult)) : List ExternalResult :=
  match x with
  | .ok rs => rs
  | .error _ => []

/-! ### Auth service (backend/src/services/auth.py)

bcrypt and SHA-256 are external libraries; they enter the model as abstract
parameters: `sha256hex` (SHA-256 hex digest of the UTF-8 bytes), `hashpw`
(salted bcrypt hash, the salt folded into the function) and `checkpw`
(bcrypt verification). -/

def BCRYPT_MAX_BYTES : Nat := 72

/-- `_preprocess_password`: passwords whose UTF-8 encoding exceeds 72 bytes
are replaced by their SHA-256 hex digest before bcrypt sees them. -/
def preprocess_password (sha256hex : String → String) (password : String) : String :=
  if password.utf8ByteSize > BCRYPT_MAX_BYTES then sha256hex password else password

/-- verify_password: empty inputs fail; otherwise check the preprocessed
password, retry with the original for short passwords (backward
compatibility), and finally fall back to direct bcrypt on the preprocessed
bytes. -/
def verify_password (checkpw : String → String → Bool) (sha256hex : String → String)
    (plain_password hashed_password : String) : Bool :=
  if plain_password = "" || hashed_password = "" then false
  else
    let preprocessed := preprocess_password sha256hex plain_password
    if checkpw preprocessed hashed_password then true
    else if decide (plain_password.utf8ByteSize ≤ BCRYPT_MAX_BYTES) &&
        checkpw plain_password hashed_password then true
    else checkpw preprocessed hashed_password

/-- get_password_hash: reject the empty password, preprocess, re-check the
72-byte safety bound, then bcrypt-hash. -/
def get_password_hash (hashpw : String → String) (sha256hex : String → String)
    (password : String) : Except String String :=
  if password = "" then .error "Password cannot be empty"
  else
    let preprocessed := preprocess_password sha256hex password
    if preprocessed.utf8ByteSize > BCRYPT_MAX_BYTES then
      .error "Internal error: preprocessed password exceeds bcrypt limit"
    else .ok (hashpw preprocessed)

def get_user_by_email (db : List User) (email : String) : Option User :=
  db.find? (fun u => u.email == email)

/-! JWT model: a token is its payload plus the key it was signed with;
decoding succeeds exactly when the key matches and the token is unexpired. -/

structure JwtPayload where
  sub : Option String
  type : Option String
  exp : Nat
  deriving DecidableEq, Repr

structure Jwt where
  payload : JwtPayload
  key : String
  deriving DecidableEq, Repr

/-- The environment-provided signing secret (JWT_SECRET_KEY). -/
def SECRET_KEY : String := "server-secret"

def ACCESS_TOKEN_EXPIRE_MINUTES : Nat := 30
def REFRESH_TOKEN_EXPIRE_DAYS : Nat := 7
def REMEMBER_ME_EXPIRE_DAYS : Nat := 30

def create_access_token (sub : String) (now : Nat) : Jwt :=
  { payload := { sub := some sub, type := none,
                 exp := now + ACCESS_TOKEN_EXPIRE_MINUTES * 60 },
    key := SECRET_KEY }

def create_refresh_token (sub : String) (now : Nat) : Jwt :=
  { payload := { sub := some sub, type := some "refresh",
                 exp := now + REFRESH_TOKEN_EXPIRE_DAYS * 86400 },
    key := SECRET_KEY }

def create_remember_me_token (sub : String) (now : Nat) : Jwt :=
  { payload := { sub := some sub, type := some "remember_me",
                 exp := now + REMEMBER_ME_EXPIRE_DAYS * 86400 },
    key := SECRET_KEY }

def create_tokens (sub : String) (now : Nat) : Jwt × Jwt :=
  (create_access_token sub now, create_refresh_token sub now)

/-- jwt.decode: signature (key) and expiry check, returning the payload. -/
def jwt_decode (key : String) (now : Nat) (t : Jwt) : Option JwtPayload :=
  if t.key == key && decide (now < t.payload.exp) then some t.payload else none

/-- verify_refresh_token: decode, then require a subject and type "refresh". -/
def verify_refresh_token (now : Nat) (t : Jwt) : Option String :=
  match jwt_decode SECRET_KEY now t with
  | none => none
  | some payload =>
    match payload.sub with
    | none => none
    | some email => if payload.type == some "refresh" then some email else none

/-- get_current_user: decode the bearer token, read the subject email, look
the user up; any failure is the same 401. The payload's type tag is never
inspected. -/
def get_current_user (db : List User) (now : Nat) (token : Jwt) :
    Except (Nat × String) User :=
  match jwt_decode SECRET_KEY now token with
  | none => .error (401, "Could not validate credentials")
  | some payload =>
    match payload.sub with
    | none => .error (401, "Could not validate credentials")
    | some email =>
      match get_user_by_email db email with
      | none => .error (401, "Could not validate credentials")
      | some u => .ok u

/-- authenticate_user: three distinct ValueError messages for missing
account, password-less (federated-only) account, and wrong password.
`if not user.hashed_password` treats both `None` and `""` as falsy. -/
def authenticate_user (checkpw : String → String → Bool)
    (sha256hex : String → String) (db : List User) (email password : String)
    (now : Nat) : Except String (User × Jwt × Jwt) :=
  match get_user_by_email db email with
  | none =>
    .error "No account found with this email address. Please check your email or sign up."
  | some user =>
    if user.hashed_password.getD "" = "" then
      .error "This account was created with Google. Please sign in with Google first, then you can set a password."
    else if !verify_password checkpw sha256hex password (user.hashed_password.getD "") then
      .error "Incorrect password, Please try again."
    else
      let tokens := create_tokens user.email now
      .ok (user, tokens.1, tokens.2)

/-- Route POST /auth/login: a ValueError from authenticate_user becomes an
HTTP 401 carrying the message. -/
def login (checkpw : String → String → Bool) (sha256hex : String → String)
    (db : List User) (email password : String) (now : Nat) :
    Except (Nat × String) (Jwt × Jwt × User) :=
  match authenticate_user checkpw sha256hex db email password now with
  | .error e => .error (401, e)
  | .ok (u, tok, rtok) => .ok (tok, rtok, u)

/-- create_user: derived username (local part of the email), committed
password hash, email provider tag. -/
def create_user (hashpw : String → String) (sha256hex : String → String)
    (db : List User) (email password : String) (newId : Nat) :
    Except String (List User × User) :=
  match get_password_hash hashpw sha256hex password with
  | .error e => .error e
  | .ok hp =>
    let u : User :=
      { id := newId, username := (email.splitOn "@").headD email, email := email,
        hashed_password := some hp, google_id := none, auth_provider := "email",
        is_active := true, is_superuser := false }
    .ok (db ++ [u], u)

/-- Route POST /auth/register: an already-registered email is rejected with
HTTP 400 ("Email already registered") before any row is created; an
unexpected hashing failure surfaces as a 500. -/
def register (hashpw : String → String) (sha256hex : String → String)
    (db : List User) (email password : String) (newId : Nat) :
    Except (Nat × String) (List User × User) :=
  match get_user_by_email db email with
  | some _ => .error (400, "Email already registered")
  | none =>
    match create_user hashpw sha256hex db email password newId with
    | .error e => .error (500, e)
    | .ok (db2, u) => .ok (db2, u)

/-! ### Concrete instantiations of the abstract crypto parameters

Used by witnesses to discharge the abstract hypotheses at concrete inputs:
`hashpwModel` is injective with non-empty outputs, `checkpwModel` accepts
exactly the matching secret, and `sha256hexModel` returns 64-byte ASCII
digests that differ on the two sample long passwords. -/

def longPasswordA : String :=
  "aaaaaaaaaaaaaaaaaaaaaaaaaaaaaaaaaaaaaaaaaaaaaaaaaaaaaaaaaaaaaaaaaaaaaaaaaaaaaaaa"

def longPasswordB : String :=
  "bbbbbbbbbbbbbbbbbbbbbbbbbbbbbbbbbbbbbbbbbbbbbbbbbbbbbbbbbbbbbbbbbbbbbbbbbbbbbbbb"

def sha256hexModel : String → String := fun s =>
  if s = longPasswordA then
    "cccccccccccccccccccccccccccccccccccccccccccccccccccccccccccccccc"
  else
    "dddddddddddddddddddddddddddddddddddddddddddddddddddddddddddddddd"

def hashpwModel : String → String := fun s => "H" ++ s

def checkpwModel : String → String → Bool := fun s h => h == "H" ++ s

/-! ### General lemmas about the stable sort -/

theorem mem_insertLe {le : α → α → Bool} {a x : α} :
    ∀ {l : List α}, x ∈ insertLe le a l ↔ x = a ∨ x ∈ l
  | [] => by simp [insertLe]
  | b :: l => by
    simp only [insertLe]
    split
    · simp
    · rw [List.mem_cons, List.mem_cons, mem_insertLe]
      tauto

theorem mem_sortBy {le : α → α → Bool} {x : α} :
    ∀ {l : List α}, x ∈ sortBy le l ↔ x ∈ l
  | [] => Iff.rfl
  | a :: l => by
    rw [sortBy, mem_insertLe, List.mem_cons, mem_sortBy]

theorem sortBy_of_pairwise {le : α → α → Bool} :
    ∀ {l : List α}, l.Pairwise (fun a b => le a b) → sortBy le l = l
  | [], _ => rfl
  | a :: l, h => by
    rw [List.pairwise_cons] at h
    rw [sortBy, sortBy_of_pairwise h.2]
    cases l with
    | nil => rfl
    | cons b l => rw [insertLe, if_pos (h.1 b (List.mem_cons_self b l))]

/-! ### Session-query lemmas -/

theorem tsLe_of_lt {a b : Chat} (h : a.timestamp < b.timestamp) : tsLe a b := by
  simp [tsLe, Nat.le_of_lt h]

theorem sessionChats_of_pairwise {db : List Chat} {uid : Nat} {sid : String}
    (hmono : (db.filter (userSessionFilter uid sid)).Pairwise
      (fun a b => a.timestamp < b.timestamp)) :
    sessionChats db uid sid = db.filter (userSessionFilter uid sid) :=
  sortBy_of_pairwise (hmono.imp tsLe_of_lt)

theorem sessionChats_append_current {db : List Chat} {uid : Nat} {sid : String}
    {u : Chat} (hu : userSessionFilter uid sid u = true)
    (hmono : (db.filter (userSessionFilter uid sid)).Pairwise
      (fun a b => a.timestamp < b.timestamp))
    (hnow : ∀ c ∈ db.filter (userSessionFilter uid sid), c.timestamp < u.timestamp) :
    sessionChats (db ++ [u]) uid sid = db.filter (userSessionFilter uid sid) ++ [u] := by
  unfold sessionChats
  rw [List.filter_append]
  have h1 : List.filter (userSessionFilter uid sid) [u] = [u] := by
    simp [List.filter, hu]
  rw [h1]
  apply sortBy_of_pairwise
  rw [List.pairwise_append]
  refine ⟨hmono.imp tsLe_of_lt, List.pairwise_singleton _ _, ?_⟩
  intro a ha b hb
  rw [List.mem_singleton] at hb
  subst hb
  exact tsLe_of_lt (hnow a ha)

theorem find?_isSome_of_filter_ne_nil {p : Chat → Bool} {db : List Chat}
    (h : db.filter p ≠ []) : (db.find? p).isSome := by
  rw [List.find?_isSome]
  obtain ⟨x, hx⟩ := List.exists_mem_of_ne_nil _ h
  rw [List.mem_filter] at hx
  exact ⟨x, hx.1, hx.2⟩

theorem get_or_create_reuse {db : List Chat} {uid : Nat} {sid fresh : String}
    (h0 : sid ≠ "") (h1 : db.filter (userSessionFilter uid sid) ≠ []) :
    get_or_create_chat_session db uid (some sid) fresh = sid := by
  have hmatch : get_or_create_chat_session db uid (some sid) fresh =
      if sid = "" then fresh
      else if (List.find? (userSessionFilter uid sid) db).isSome = true then sid
      else fresh := rfl
  rw [hmatch, if_neg h0, if_pos (find?_isSome_of_filter_ne_nil h1)]

/-- C1: for turns of a (user, session) inserted at strictly increasing
timestamps, the history replay passed to the completion backend inside
stream_response is exactly those turns in ascending timestamp order, mapped
to roles "assistant" (generated) / "user" (not generated), excluding the
just-inserted current user turn — preceded by the system prompt and followed
by the current message — and GET /messages/chat/{session} returns the same
turns in the same ascending order. -/
theorem claim1_history_replay_and_listing_order
    (chars : List Character) (db : List Chat) (uid : Nat) (cid : Option Nat)
    (sid : String) (msg fresh sys : String) (now tbot : Nat) (id1 id2 : Nat)
    (outcome : GenOutcome)
    (hsid : sid ≠ "")
    (hne : db.filter (userSessionFilter uid sid) ≠ [])
    (hmono : (db.filter (userSessionFilter uid sid)).Pairwise
      (fun a b => a.timestamp < b.timestamp))
    (hnow : ∀ c ∈ db.filter (userSessionFilter uid sid), c.timestamp < now)
    (hchar : get_character_context chars cid = .ok sys) :
    (stream_response chars db uid cid (some sid) msg fresh now tbot id1 id2 outcome).api
      = some ({ role := "system", content := sys } ::
          (db.filter (userSessionFilter uid sid)).map toRoleMsg ++
          [{ role := "user", content := msg }])
    ∧ get_chat_session_messages db uid sid
      = .ok ((db.filter (userSessionFilter uid sid)).map toMsgDict) := by
  have hreuse : get_or_create_chat_session db uid (some sid) fresh = sid :=
    get_or_create_reuse hsid hne
  constructor
  · have hu : userSessionFilter uid sid
        { id := id1, user_id := uid, character_id := cid, message := msg,
          is_bot := false, timestamp := now, chat_session := some sid } = true := by
      simp [userSessionFilter]
    have hsess := sessionChats_append_current hu hmono hnow
    simp only [stream_response, hreuse, hchar]
    cases outcome with
    | success chunks =>
      simp [conversation_history, hsess, List.dropLast_concat, messages_for_api]
    | failure chunks err =>
      simp [conversation_history, hsess, List.dropLast_concat, messages_for_api]
  · obtain ⟨x, xs, hcons⟩ := List.exists_cons_of_ne_nil hne
    simp only [get_chat_session_messages, sessionChats_of_pairwise hmono]
    rw [hcons]
    simp

/-- Witness for claim1: a two-turn session at timestamps 1 < 2, current
message at time 5. -/
theorem claim1_witness :
    (("s" : String) ≠ "") ∧
    ((stream_response [] [⟨1, 1, none, "hi", false, 1, some "s"⟩,
        ⟨2, 1, none, "yo", true, 2, some "s"⟩] 1 none (some "s") "m" "f" 5 6 3 4
        (.success ["x"])).api
      = some ({ role := "system", content := "You are a helpful AI assistant." } ::
          (([⟨1, 1, none, "hi", false, 1, some "s"⟩,
             ⟨2, 1, none, "yo", true, 2, some "s"⟩] : List Chat).filter
            (userSessionFilter 1 "s")).map toRoleMsg ++
          [{ role := "user", content := "m" }])
      ∧ get_chat_session_messages [⟨1, 1, none, "hi", false, 1, some "s"⟩,
          ⟨2, 1, none, "yo", true, 2, some "s"⟩] 1 "s"
        = .ok ((([⟨1, 1, none, "hi", false, 1, some "s"⟩,
             ⟨2, 1, none, "yo", true, 2, some "s"⟩] : List Chat).filter
            (userSessionFilter 1 "s")).map toMsgDict)) :=
  ⟨by decide,
   claim1_history_replay_and_listing_order [] _ 1 none "s" "m" "f"
     "You are a helpful AI assistant." 5 6 3 4 (.success ["x"])
     (by decide) (by decide) (by decide) (by decide) rfl⟩

/-- C2: in stream_response the user's turn (is_bot = false) is persisted
before the completion backend is invoked — the message list handed to the
backend is computed over the store already containing that turn — and the
generated reply is persisted (is_bot = true) only after generation completes:
on failure mid-generation the final store is exactly the old store plus the
user turn (every generated turn in it was already there), and the stream ends
with an error/done frame and contains no success frame; on success the
generated turn is appended and the stream ends with the success frame. -/
theorem claim2_stream_persistence_and_error_frames
    (chars : List Character) (db : List Chat) (uid : Nat) (cid : Option Nat)
    (os : Option String) (msg fresh sys : String) (now tbot : Nat) (id1 id2 : Nat)
    (sid : String) (userChat : Chat)
    (hchar : get_character_context chars cid = .ok sys)
    (hsid : sid = get_or_create_chat_session db uid os fresh)
    (huser : userChat = ⟨id1, uid, cid, msg, false, now, some sid⟩) :
    (∀ chunks err,
      (stream_response chars db uid cid os msg fresh now tbot id1 id2
          (.failure chunks err)).db = db ++ [userChat]
      ∧ (stream_response chars db uid cid os msg fresh now tbot id1 id2
          (.failure chunks err)).api
        = some (messages_for_api sys
            (conversation_history (db ++ [userChat]) uid sid) msg)
      ∧ (stream_response chars db uid cid os msg fresh now tbot id1 id2
          (.failure chunks err)).events.getLast? = some (.doneErr err)
      ∧ (∀ s, StreamEvent.doneOk s ∉ (stream_response chars db uid cid os msg fresh
          now tbot id1 id2 (.failure chunks err)).events)
      ∧ (∀ c ∈ (stream_response chars db uid cid os msg fresh now tbot id1 id2
          (.failure chunks err)).db, c.is_bot = true → c ∈ db))
    ∧ (∀ chunks,
      (stream_response chars db uid cid os msg fresh now tbot id1 id2
          (.success chunks)).db
        = db ++ [userChat,
            ⟨id2, uid, cid, full_response chunks, true, tbot, some sid⟩]
      ∧ (stream_response chars db uid cid os msg fresh now tbot id1 id2
          (.success chunks)).api
        = some (messages_for_api sys
            (conversation_history (db ++ [userChat]) uid sid) msg)
      ∧ (stream_response chars db uid cid os msg fresh now tbot id1 id2
          (.success chunks)).events.getLast? = some (.doneOk sid)) := by
  subst hsid huser
  constructor
  · intro chunks err
    refine ⟨?_, ?_, ?_, ?_, ?_⟩
    · simp [stream_response, hchar]
    · simp [stream_response, hchar]
    · simp [stream_response, hchar]
    · intro s
      simp [stream_response, hchar, emitChunks]
    · intro c hc hbot
      simp only [stream_response, hchar] at hc
      rw [List.mem_append] at hc
      rcases hc with hc | hc
      · exact hc
      · rw [List.mem_singleton] at hc
        subst hc
        simp at hbot
  · intro chunks
    refine ⟨?_, ?_, ?_⟩
    · simp [stream_response, hchar]
    · simp [stream_response, hchar]
    · simp [stream_response, hchar]

/-- Witness for claim2: fresh session, no character, failing and succeeding
generation at concrete inputs. -/
theorem claim2_witness :
    get_character_context [] none = .ok "You are a helpful AI assistant." ∧
    ((∀ chunks err,
      (stream_response [] [] 1 none none "hello" "f" 5 6 1 2
          (.failure chunks err)).db
        = [] ++ [⟨1, 1, none, "hello", false, 5, some "f"⟩]
      ∧ (stream_response [] [] 1 none none "hello" "f" 5 6 1 2
          (.failure chunks err)).api
        = some (messages_for_api "You are a helpful AI assistant."
            (conversation_history ([] ++ [⟨1, 1, none, "hello", false, 5, some "f"⟩]) 1 "f")
            "hello")
      ∧ (stream_response [] [] 1 none none "hello" "f" 5 6 1 2
          (.failure chunks err)).events.getLast? = some (.doneErr err)
      ∧ (∀ s, StreamEvent.doneOk s ∉ (stream_response [] [] 1 none none "hello" "f"
          5 6 1 2 (.failure chunks err)).events)
      ∧ (∀ c ∈ (stream_response [] [] 1 none none "hello" "f" 5 6 1 2
          (.failure chunks err)).db, c.is_bot = true → c ∈ ([] : List Chat)))
    ∧ (∀ chunks,
      (stream_response [] [] 1 none none "hello" "f" 5 6 1 2 (.success chunks)).db
        = [] ++ [⟨1, 1, none, "hello", false, 5, some "f"⟩,
            ⟨2, 1, none, full_response chunks, true, 6, some "f"⟩]
      ∧ (stream_response [] [] 1 none none "hello" "f" 5 6 1 2 (.success chunks)).api
        = some (messages_for_api "You are a helpful AI assistant."
            (conversation_history ([] ++ [⟨1, 1, none, "hello", false, 5, some "f"⟩]) 1 "f")
            "hello")
      ∧ (stream_response [] [] 1 none none "hello" "f" 5 6 1 2
          (.success chunks)).events.getLast? = some (.doneOk "f"))) :=
  ⟨rfl,
   claim2_stream_persistence_and_error_frames [] [] 1 none none "hello" "f"
     "You are a helpful AI assistant." 5 6 1 2 "f"
     ⟨1, 1, none, "hello", false, 5, some "f"⟩ rfl rfl rfl⟩

/-- C6: every session entry returned by GET /chat/sessions carries as title
the first non-generated turn's text truncated to 50 characters with an
ellipsis appended exactly when that text exceeds 50 characters, and the
literal "New conversation" when the session has no non-generated turn
(`titleSpec` is that spec formula, evaluated on the session's
timestamp-ordered turns). -/
theorem claim6_session_title (db : List Chat) (uid : Nat) (s : SessionInfo)
    (hs : s ∈ get_chat_sessions db uid) :
    s.title = titleSpec (sessionChats db uid s.chat_session) := by
  unfold get_chat_sessions at hs
  rw [mem_sortBy, List.mem_filterMap] at hs
  obtain ⟨sid, _, hmk⟩ := hs
  unfold mkSessionInfo at hmk
  cases hsc : sessionChats db uid sid with
  | nil =>
    rw [hsc] at hmk
    exact absurd hmk (by simp)
  | cons first rest =>
    rw [hsc] at hmk
    simp only [Option.some.injEq] at hmk
    subst hmk
    simp only [titleSpec, hsc]

set_option maxRecDepth 8192 in
/-- Witness for claim6: one two-turn session whose first user turn is
"hello". -/
theorem claim6_witness :
    ((⟨"s1", "hello", "world", 5, 6, none, 2⟩ : SessionInfo) ∈
      get_chat_sessions [⟨1, 1, none, "hello", false, 5, some "s1"⟩,
        ⟨2, 1, none, "world", true, 6, some "s1"⟩] 1)
    ∧ (⟨"s1", "hello", "world", 5, 6, none, 2⟩ : SessionInfo).title
      = titleSpec (sessionChats [⟨1, 1, none, "hello", false, 5, some "s1"⟩,
          ⟨2, 1, none, "world", true, 6, some "s1"⟩] 1 "s1") :=
  ⟨by decide, claim6_session_title _ 1 _ (by decide)⟩

/-! ### Aggregator lemmas -/

theorem addSource_spec (src : Except String (List ExternalResult))
    (acc : List ExternalResult × List (String × String)) :
    addSource acc src
      = (acc.1 ++ dedupByKey (sourceList src) acc.2,
         seenAfter (sourceList src) acc.2) := by
  cases src with
  | error e => simp [addSource, sourceList, dedupByKey, seenAfter]
  | ok rs =>
    simp only [addSource, sourceList]
    induction rs generalizing acc with
    | nil => simp [dedupByKey, seenAfter]
    | cons r rs ih =>
      rw [List.foldl_cons]
      by_cases h : dedupKey r ∈ acc.2
      · rw [if_pos h, ih acc]
        simp [dedupByKey, seenAfter, h]
      · rw [if_neg h, ih (acc.1 ++ [r], dedupKey r :: acc.2)]
        simp [dedupByKey, seenAfter, h]

theorem dedupByKey_append (xs ys : List ExternalResult) :
    ∀ seen, dedupByKey (xs ++ ys) seen
      = dedupByKey xs seen ++ dedupByKey ys (seenAfter xs seen) := by
  induction xs with
  | nil => intro seen; simp [dedupByKey, seenAfter]
  | cons x xs ih =>
    intro seen
    rw [List.cons_append, dedupByKey, dedupByKey, seenAfter]
    by_cases h : dedupKey x ∈ seen
    · simp only [if_pos h]
      exact ih seen
    · simp only [if_neg h]
      rw [List.cons_append, ih (dedupKey x :: seen)]

theorem dedupKey_not_mem_of_mem_dedupByKey {r : ExternalResult} :
    ∀ {l : List ExternalResult} {seen : List (String × String)},
      r ∈ dedupByKey l seen → dedupKey r ∉ seen
  | [], _, h => absurd h (List.not_mem_nil r)
  | x :: l, seen, h => by
    rw [dedupByKey] at h
    by_cases hx : dedupKey x ∈ seen
    · rw [if_pos hx] at h
      exact dedupKey_not_mem_of_mem_dedupByKey h
    · rw [if_neg hx] at h
      rcases List.mem_cons.mp h with rfl | h
      · exact hx
      · have := dedupKey_not_mem_of_mem_dedupByKey h
        intro hmem
        exact this (List.mem_cons_of_mem _ hmem)

theorem dedupByKey_pairwise :
    ∀ (l : List ExternalResult) (seen : List (String × String)),
      (dedupByKey l seen).Pairwise (fun a b => dedupKey a ≠ dedupKey b)
  | [], _ => List.Pairwise.nil
  | x :: l, seen => by
    rw [dedupByKey]
    by_cases hx : dedupKey x ∈ seen
    · rw [if_pos hx]
      exact dedupByKey_pairwise l seen
    · rw [if_neg hx]
      refine List.pairwise_cons.mpr ⟨?_, dedupByKey_pairwise l _⟩
      intro b hb
      have := dedupKey_not_mem_of_mem_dedupByKey hb
      intro hkey
      exact this (hkey ▸ List.mem_cons_self _ _)

/-- C3 counterexample: two AniList results with empty external ids and
different names are both kept (their de-duplication keys differ, falling back
to the names), so the `all` output contains two results sharing the same
(source, external-id) pair — refuting the claim's "never" consequence. -/
theorem claim3_counterexample :
    (search_external_characters_all
        (.ok [⟨"A", "U", "", none, none, "anilist", some ""⟩,
              ⟨"B", "U", "", none, none, "anilist", some ""⟩])
        (.ok []) (.ok []) (.ok []) 10)
      = [⟨"A", "U", "", none, none, "anilist", some ""⟩,
         ⟨"B", "U", "", none, none, "anilist", some ""⟩]
    ∧ (⟨"A", "U", "", none, none, "anilist", some ""⟩ : ExternalResult)
        ≠ ⟨"B", "U", "", none, none, "anilist", some ""⟩
    ∧ (⟨"A", "U", "", none, none, "anilist", some ""⟩ : ExternalResult).source
        = (⟨"B", "U", "", none, none, "anilist", some ""⟩ : ExternalResult).source
    ∧ (⟨"A", "U", "", none, none, "anilist", some ""⟩ : ExternalResult).external_id
        = (⟨"B", "U", "", none, none, "anilist", some ""⟩ : ExternalResult).external_id :=
  ⟨by decide, by decide, rfl, rfl⟩

/-- C3 (amended): the `all` category equals truncate-to-limit of the
first-occurrence de-duplication (by key (source, external-id-or-name)) of the
four sources' results concatenated in the fixed priority order anime,
movie/TV, book, encyclopedia; no two returned results share a de-duplication
key — in particular no two share the same (source, external-id) pair when
that external id is present and non-empty — the output never exceeds the
requested limit, and each source's failure is isolated, acting exactly like
an empty result from that source. -/
theorem claim3_amended_all_aggregation
    (anime tmdb openlibrary wikipedia : Except String (List ExternalResult))
    (lim : Nat) :
    search_external_characters_all anime tmdb openlibrary wikipedia lim
      = (dedupByKey (sourceList anime ++ sourceList tmdb ++
          sourceList openlibrary ++ sourceList wikipedia) []).take lim
    ∧ (search_external_characters_all anime tmdb openlibrary wikipedia lim).Pairwise
        (fun a b => dedupKey a ≠ dedupKey b)
    ∧ (search_external_characters_all anime tmdb openlibrary wikipedia lim).Pairwise
        (fun a b => a.source = b.source → a.external_id = b.external_id →
          a.external_id.getD "" = "")
    ∧ (search_external_characters_all anime tmdb openlibrary wikipedia lim).length ≤ lim
    ∧ (∀ e, search_external_characters_all (.error e) tmdb openlibrary wikipedia lim
        = search_external_characters_all (.ok []) tmdb openlibrary wikipedia lim)
    ∧ (∀ e, search_external_characters_all anime (.error e) openlibrary wikipedia lim
        = search_external_characters_all anime (.ok []) openlibrary wikipedia lim)
    ∧ (∀ e, search_external_characters_all anime tmdb (.error e) wikipedia lim
        = search_external_characters_all anime tmdb (.ok []) wikipedia lim)
    ∧ (∀ e, search_external_characters_all anime tmdb openlibrary (.error e) lim
        = search_external_characters_all anime tmdb openlibrary (.ok []) lim) := by
  have hspec : search_external_characters_all anime tmdb openlibrary wikipedia lim
      = (dedupByKey (sourceList anime ++ sourceList tmdb ++
          sourceList openlibrary ++ sourceList wikipedia) []).take lim := by
    unfold search_external_characters_all
    rw [addSource_spec anime, addSource_spec tmdb, addSource_spec openlibrary,
      addSource_spec wikipedia]
    simp only [List.nil_append]
    have hassoc : sourceList anime ++ sourceList tmdb ++ sourceList openlibrary ++
        sourceList wikipedia
        = sourceList anime ++ (sourceList tmdb ++ (sourceList openlibrary ++
            sourceList wikipedia)) := by
      simp [List.append_assoc]
    rw [hassoc, dedupByKey_append, dedupByKey_append, dedupByKey_append]
    simp [List.append_assoc]
  have hpair : (search_external_characters_all anime tmdb openlibrary wikipedia
      lim).Pairwise (fun a b => dedupKey a ≠ dedupKey b) := by
    rw [hspec]
    exact (dedupByKey_pairwise _ _).sublist (List.take_sublist _ _)
  refine ⟨hspec, hpair, ?_, ?_, fun e => rfl, fun e => rfl, fun e => rfl, fun e => rfl⟩
  · refine hpair.imp ?_
    intro a b hkey hsrc hext
    cases hea : a.external_id with
    | none => rfl
    | some s =>
      by_cases hs : s = ""
      · subst hs
        rfl
      · exfalso
        apply hkey
        have ha : dedupKey a = (a.source, s) := by
          unfold dedupKey
          rw [hea]
          simp [hs]
        have hb : dedupKey b = (b.source, s) := by
          unfold dedupKey
          rw [← hext, hea]
          simp [hs]
        rw [ha, hb, hsrc]
  · rw [hspec]
    exact List.length_take_le _ _

/-! ### String helpers for the crypto witness models -/

theorem string_eq_of_data_eq {s t : String} (h : s.data = t.data) : s = t := by
  cases s
  cases t
  exact congrArg String.mk (by simpa using h)

theorem string_hAppend_inj {s t : String} (h : "H" ++ s = "H" ++ t) : s = t := by
  have hd := congrArg String.data h
  rw [String.data_append, String.data_append] at hd
  exact string_eq_of_data_eq (List.append_cancel_left hd)

theorem hashpwModel_ne_empty (s : String) : hashpwModel s ≠ "" := by
  intro h
  have hd := congrArg String.data h
  rw [hashpwModel] at hd
  rw [String.data_append] at hd
  simp at hd

theorem checkpwModel_ok (s : String) : checkpwModel s (hashpwModel s) = true := by
  simp [checkpwModel, hashpwModel]

theorem checkpwModel_ne (s t : String) (h : s ≠ t) :
    checkpwModel s (hashpwModel t) = false := by
  simp only [checkpwModel, hashpwModel, beq_eq_false_iff_ne, ne_eq]
  intro hc
  exact h (string_hAppend_inj hc).symm

theorem sha256hexModel_fix (s : String) :
    (sha256hexModel s).length = 64 ∧ (sha256hexModel s).utf8ByteSize = 64 := by
  unfold sha256hexModel
  split
  · exact ⟨by decide, by decide⟩
  · exact ⟨by decide, by decide⟩

/-- C4: for any password whose UTF-8 encoding exceeds the 72-byte bcrypt
limit, hashing first condenses it through the fixed-length (64 hex
characters) SHA-256 digest and bcrypt-hashes that digest; the round trip
holds: verifying the same long password against its computed hash succeeds,
and verifying a different long password (with a distinct digest) against
that hash fails.  bcrypt and SHA-256 are abstract parameters constrained by
the stated hypotheses. -/
theorem claim4_long_password_roundtrip
    (sha256hex hashpw : String → String) (checkpw : String → String → Bool)
    (Hfix : ∀ s, (sha256hex s).length = 64 ∧ (sha256hex s).utf8ByteSize = 64)
    (Hok : ∀ s, checkpw s (hashpw s) = true)
    (Hne : ∀ s t, s ≠ t → checkpw s (hashpw t) = false)
    (Hnz : ∀ s, hashpw s ≠ "")
    (p q : String)
    (hp : p.utf8ByteSize > BCRYPT_MAX_BYTES)
    (hq : q.utf8ByteSize > BCRYPT_MAX_BYTES)
    (hcol : sha256hex p ≠ sha256hex q) :
    preprocess_password sha256hex p = sha256hex p
    ∧ (sha256hex p).length = 64
    ∧ get_password_hash hashpw sha256hex p = .ok (hashpw (sha256hex p))
    ∧ verify_password checkpw sha256hex p (hashpw (sha256hex p)) = true
    ∧ verify_password checkpw sha256hex q (hashpw (sha256hex p)) = false := by
  have hpne : p ≠ "" := by
    intro h
    subst h
    exact absurd hp (by decide)
  have hqne : q ≠ "" := by
    intro h
    subst h
    exact absurd hq (by decide)
  have hpre : preprocess_password sha256hex p = sha256hex p := by
    unfold preprocess_password
    rw [if_pos hp]
  have hpreq : preprocess_password sha256hex q = sha256hex q := by
    unfold preprocess_password
    rw [if_pos hq]
  refine ⟨hpre, (Hfix p).1, ?_, ?_, ?_⟩
  · unfold get_password_hash
    rw [if_neg hpne, hpre]
    rw [if_neg (by rw [(Hfix p).2]; decide)]
  · unfold verify_password
    rw [if_neg (by simp [hpne, Hnz (sha256hex p)])]
    rw [hpre]
    simp [Hok (sha256hex p)]
  · unfold verify_password
    rw [if_neg (by simp [hqne, Hnz (sha256hex p)])]
    rw [hpreq]
    have hqgt : ¬ (q.utf8ByteSize ≤ BCRYPT_MAX_BYTES) := by omega
    simp [Hne (sha256hex q) (sha256hex p) (Ne.symm hcol), hqgt]

/-- Witness for claim4: two concrete 80-byte passwords under the concrete
crypto models. -/
theorem claim4_witness :
    longPasswordA.utf8ByteSize > BCRYPT_MAX_BYTES
    ∧ longPasswordB.utf8ByteSize > BCRYPT_MAX_BYTES
    ∧ sha256hexModel longPasswordA ≠ sha256hexModel longPasswordB
    ∧ (preprocess_password sha256hexModel longPasswordA
        = sha256hexModel longPasswordA
      ∧ (sha256hexModel longPasswordA).length = 64
      ∧ get_password_hash hashpwModel sha256hexModel longPasswordA
          = .ok (hashpwModel (sha256hexModel longPasswordA))
      ∧ verify_password checkpwModel sha256hexModel longPasswordA
          (hashpwModel (sha256hexModel longPasswordA)) = true
      ∧ verify_password checkpwModel sha256hexModel longPasswordB
          (hashpwModel (sha256hexModel longPasswordA)) = false) :=
  ⟨by decide, by decide, by decide,
   claim4_long_password_roundtrip sha256hexModel hashpwModel checkpwModel
     sha256hexModel_fix checkpwModel_ok checkpwModel_ne hashpwModel_ne_empty
     longPasswordA longPasswordB (by decide) (by decide) (by decide)⟩

/-- C5: the three authenticate failure cases — unknown email, account
without a password (federated-only), wrong password — surface through the
login route as 401 responses carrying three pairwise distinct messages. -/
theorem claim5_distinct_auth_errors
    (checkpw : String → String → Bool) (sha256hex : String → String)
    (db : List User) (email password : String) (now : Nat) :
    (get_user_by_email db email = none →
      login checkpw sha256hex db email password now
        = .error (401, "No account found with this email address. Please check your email or sign up."))
    ∧ (∀ u, get_user_by_email db email = some u → u.hashed_password.getD "" = "" →
      login checkpw sha256hex db email password now
        = .error (401, "This account was created with Google. Please sign in with Google first, then you can set a password."))
    ∧ (∀ u, get_user_by_email db email = some u → u.hashed_password.getD "" ≠ "" →
      verify_password checkpw sha256hex password (u.hashed_password.getD "") = false →
      login checkpw sha256hex db email password now
        = .error (401, "Incorrect password, Please try again."))
    ∧ ("No account found with this email address. Please check your email or sign up."
        ≠ "This account was created with Google. Please sign in with Google first, then you can set a password.")
    ∧ ("No account found with this email address. Please check your email or sign up."
        ≠ "Incorrect password, Please try again.")
    ∧ ("This account was created with Google. Please sign in with Google first, then you can set a password."
        ≠ "Incorrect password, Please try again.") := by
  refine ⟨?_, ?_, ?_, by decide, by decide, by decide⟩
  · intro h
    unfold login authenticate_user
    rw [h]
  · intro u hu hpw
    unfold login authenticate_user
    rw [hu]
    simp [hpw]
  · intro u hu hpw hverify
    unfold login authenticate_user
    rw [hu]
    simp [hpw, hverify]

/-- Witness for claim5: the three failure cases at concrete stores. -/
theorem claim5_witness :
    login checkpwModel sha256hexModel [] "a@b.c" "pw" 0
      = .error (401, "No account found with this email address. Please check your email or sign up.")
    ∧ login checkpwModel sha256hexModel
        [⟨1, "g", "g@b.c", none, some "gid", "google", true, false⟩] "g@b.c" "pw" 0
      = .error (401, "This account was created with Google. Please sign in with Google first, then you can set a password.")
    ∧ login checkpwModel sha256hexModel
        [⟨2, "e", "e@b.c", some "HASH", none, "email", true, false⟩] "e@b.c" "pw" 0
      = .error (401, "Incorrect password, Please try again.") :=
  ⟨(claim5_distinct_auth_errors checkpwModel sha256hexModel [] "a@b.c" "pw" 0).1 rfl,
   (claim5_distinct_auth_errors checkpwModel sha256hexModel
     [⟨1, "g", "g@b.c", none, some "gid", "google", true, false⟩] "g@b.c" "pw" 0).2.1
     ⟨1, "g", "g@b.c", none, some "gid", "google", true, false⟩ rfl rfl,
   (claim5_distinct_auth_errors checkpwModel sha256hexModel
     [⟨2, "e", "e@b.c", some "HASH", none, "email", true, false⟩] "e@b.c" "pw" 0).2.2.1
     ⟨2, "e", "e@b.c", some "HASH", none, "email", true, false⟩ rfl (by decide) (by decide)⟩

/-- C7 counterexample: registering an already-registered email fails with
HTTP 400, not 409 — the register route pre-checks the email and raises
HTTPException(status_code=400, "Email already registered"). -/
theorem claim7_counterexample :
    register hashpwModel sha256hexModel
        [⟨1, "alice", "alice@example.com", some "h", none, "email", true, false⟩]
        "alice@example.com" "pw123456" 2
      = .error (400, "Email already registered")
    ∧ (400 : Nat) ≠ 409 :=
  ⟨rfl, by decide⟩

/-- C7 (amended): registering an email already present in the credential
store fails with HTTP 400 ("Email already registered") and creates no second
user record (no success result is possible). -/
theorem claim7_amended_duplicate_email (hashpw sha256hex : String → String)
    (db : List User) (email password : String) (newId : Nat)
    (h : get_user_by_email db email ≠ none) :
    register hashpw sha256hex db email password newId
      = .error (400, "Email already registered")
    ∧ ∀ db2 u, register hashpw sha256hex db email password newId
        ≠ .ok (db2, u) := by
  have heq : register hashpw sha256hex db email password newId
      = .error (400, "Email already registered") := by
    unfold register
    cases hfind : get_user_by_email db email with
    | none => exact absurd hfind h
    | some u => rfl
  refine ⟨heq, ?_⟩
  intro db2 u hc
  rw [heq] at hc
  exact Except.noConfusion hc

/-- Witness for claim7 (amended): duplicate registration at a concrete
store. -/
theorem claim7_witness :
    (get_user_by_email
        [⟨1, "alice", "alice@example.com", some "h", none, "email", true, false⟩]
        "alice@example.com" ≠ none)
    ∧ register hashpwModel sha256hexModel
        [⟨1, "alice", "alice@example.com", some "h", none, "email", true, false⟩]
        "alice@example.com" "other-pw" 2
      = .error (400, "Email already registered") :=
  ⟨by decide,
   (claim7_amended_duplicate_email hashpwModel sha256hexModel
     [⟨1, "alice", "alice@example.com", some "h", none, "email", true, false⟩]
     "alice@example.com" "other-pw" 2 (by decide)).1⟩

/-- C8 (code bug): get_my_characters issues the favorites query with no
`order_by`, so favorite rows come back in table (insertion) order and the
characters are returned oldest-favorite-first — although the function's own
comment says "most recent first".  With favorites created at times 10 then
20, the favorited characters come back as [first, second], not
[second, first]. -/
theorem claim8_favorites_order_bug :
    get_my_characters
        [⟨1, 1, 1, 10⟩, ⟨2, 1, 2, 20⟩]
        [⟨1, "First", "M1", "s", [], none, none, none, none⟩,
         ⟨2, "Second", "M2", "s", [], none, none, none, none⟩] 1
      = [⟨1, "First", "M1", "s", [], none, none, none, none⟩,
         ⟨2, "Second", "M2", "s", [], none, none, none, none⟩]
    ∧ get_my_characters
        [⟨1, 1, 1, 10⟩, ⟨2, 1, 2, 20⟩]
        [⟨1, "First", "M1", "s", [], none, none, none, none⟩,
         ⟨2, "Second", "M2", "s", [], none, none, none, none⟩] 1
      ≠ [⟨2, "Second", "M2", "s", [], none, none, none, none⟩,
         ⟨1, "First", "M1", "s", [], none, none, none, none⟩] :=
  ⟨by decide, by decide⟩

/-- C9: get_current_user never inspects the token's type tag — any unexpired
token signed with the server secret whose subject is an existing user's email
is accepted; in particular refresh tokens and remember-me tokens pass
wherever an access token is required. -/
theorem claim9_bearer_ignores_token_type
    (db : List User) (now : Nat) (email : String) (u : User)
    (hu : get_user_by_email db email = some u) :
    (∀ t : Jwt, t.key = SECRET_KEY → now < t.payload.exp →
      t.payload.sub = some email → get_current_user db now t = .ok u)
    ∧ (∀ iat, now < iat + REFRESH_TOKEN_EXPIRE_DAYS * 86400 →
      get_current_user db now (create_refresh_token email iat) = .ok u)
    ∧ (∀ iat, now < iat + REMEMBER_ME_EXPIRE_DAYS * 86400 →
      get_current_user db now (create_remember_me_token email iat) = .ok u) := by
  have hgen : ∀ t : Jwt, t.key = SECRET_KEY → now < t.payload.exp →
      t.payload.sub = some email → get_current_user db now t = .ok u := by
    intro t hkey hexp hsub
    have hdec : jwt_decode SECRET_KEY now t = some t.payload := by
      unfold jwt_decode
      rw [if_pos (by simp [hkey, hexp])]
    unfold get_current_user
    rw [hdec]
    simp [hsub, hu]
  exact ⟨hgen,
    fun iat h => hgen _ rfl h rfl,
    fun iat h => hgen _ rfl h rfl⟩

/-- Witness for claim9: a refresh token and a remember-me token are both
accepted by the bearer dependency at a concrete store. -/
theorem claim9_witness :
    get_user_by_email [⟨1, "u", "a@b.c", some "h", none, "email", true, false⟩]
        "a@b.c"
      = some ⟨1, "u", "a@b.c", some "h", none, "email", true, false⟩
    ∧ get_current_user [⟨1, "u", "a@b.c", some "h", none, "email", true, false⟩]
        5 (create_refresh_token "a@b.c" 0)
      = .ok ⟨1, "u", "a@b.c", some "h", none, "email", true, false⟩
    ∧ get_current_user [⟨1, "u", "a@b.c", some "h", none, "email", true, false⟩]
        5 (create_remember_me_token "a@b.c" 0)
      = .ok ⟨1, "u", "a@b.c", some "h", none, "email", true, false⟩ :=
  ⟨rfl,
   (claim9_bearer_ignores_token_type
     [⟨1, "u", "a@b.c", some "h", none, "email", true, false⟩] 5 "a@b.c"
     ⟨1, "u", "a@b.c", some "h", none, "email", true, false⟩ rfl).2.1 0 (by decide),
   (claim9_bearer_ignores_token_type
     [⟨1, "u", "a@b.c", some "h", none, "email", true, false⟩] 5 "a@b.c"
     ⟨1, "u", "a@b.c", some "h", none, "email", true, false⟩ rfl).2.2 0 (by decide)⟩

/-- C10: when a character id is supplied, the non-streaming get_response
persists the user turn with no character id (only the generated turn carries
the id), while stream_response stores the id on both turns. -/
theorem claim10_character_id_asymmetry
    (chars : List Character) (db : List Chat) (uid cid : Nat)
    (ch : Character) (os : Option String) (msg fresh rsp : String)
    (t1 t2 : Nat) (id1 id2 : Nat) (chunks : List String) (sid : String)
    (hcid : cid ≠ 0)
    (hch : chars.find? (fun c => c.id == cid) = some ch)
    (hsid : sid = get_or_create_chat_session db uid os fresh) :
    get_response chars db uid (some cid) os msg fresh t1 t2 id1 id2 rsp
      = .ok (db ++ [⟨id1, uid, none, msg, false, t1, some sid⟩,
            ⟨id2, uid, some cid, rsp, true, t2, some sid⟩],
          messages_for_api (characterContext ch)
            (conversation_history
              (db ++ [⟨id1, uid, none, msg, false, t1, some sid⟩]) uid sid) msg,
          rsp)
    ∧ (stream_response chars db uid (some cid) os msg fresh t1 t2 id1 id2
        (.success chunks)).db
      = db ++ [⟨id1, uid, some cid, msg, false, t1, some sid⟩,
          ⟨id2, uid, some cid, full_response chunks, true, t2, some sid⟩] := by
  subst hsid
  have hctx : get_character_context chars (some cid) = .ok (characterContext ch) := by
    simp [get_character_context, hch]
  constructor
  · unfold get_response
    simp [hcid, hch, hctx, List.append_assoc]
  · simp [stream_response, hctx, List.append_assoc]

/-- Witness for claim10: one character, empty store, fresh session. -/
theorem claim10_witness :
    ((7 : Nat) ≠ 0)
    ∧ ([⟨7, "N", "M", "sty", [], none, none, none, none⟩] : List Character).find?
        (fun c => c.id == 7) = some ⟨7, "N", "M", "sty", [], none, none, none, none⟩
    ∧ (get_response [⟨7, "N", "M", "sty", [], none, none, none, none⟩] [] 1
        (some 7) none "hi" "f" 4 5 1 2 "re"
      = .ok ([] ++ [⟨1, 1, none, "hi", false, 4, some "f"⟩,
            ⟨2, 1, some 7, "re", true, 5, some "f"⟩],
          messages_for_api
            (characterContext ⟨7, "N", "M", "sty", [], none, none, none, none⟩)
            (conversation_history
              ([] ++ [⟨1, 1, none, "hi", false, 4, some "f"⟩]) 1 "f") "hi",
          "re")
      ∧ (stream_response [⟨7, "N", "M", "sty", [], none, none, none, none⟩] [] 1
          (some 7) none "hi" "f" 4 5 1 2 (.success ["r", "e"])).db
        = [] ++ [⟨1, 1, some 7, "hi", false, 4, some "f"⟩,
            ⟨2, 1, some 7, full_response ["r", "e"], true, 5, some "f"⟩]) :=
  ⟨by decide, by decide,
   claim10_character_id_asymmetry
     [⟨7, "N", "M", "sty", [], none, none, none, none⟩] [] 1 7
     ⟨7, "N", "M", "sty", [], none, none, none, none⟩ none "hi" "f" "re"
     4 5 1 2 ["r", "e"] "f" (by decide) (by decide) rfl⟩

end PersonaChatbot
